import Mathlib

/-!
Shallow embedding of the audio streaming and turn-management engine of
src/App.tsx (a real-time, full-duplex voice conversation client), together
with the enum/interface declarations of src/unnamed/part_000.

Modelling conventions: device-clock times and buffer durations are rationals;
audio sources and captured frames are numeric ids; the React state hooks and
refs become fields of explicit state records, and each event handler becomes a
state-transition function.  Every definition cites the source lines it
translates.
-/

namespace GeminiLive

/-- Connection status of the session (src/unnamed/part_000, enum
ConnectionStatus). -/
inductive ConnectionStatus where
  | disconnected
  | connecting
  | connected
  | error
  deriving DecidableEq, Repr

/-- Talk mode (src/unnamed/part_000, enum TalkMode). -/
inductive TalkMode where
  | continuous
  | ptt
  deriving DecidableEq, Repr

/-- Message sender (src/unnamed/part_000, Message.sender). -/
inductive Sender where
  | user
  | model
  deriving DecidableEq, Repr

/-- Immutable history entry (src/unnamed/part_000, interface Message). -/
structure Message where
  id : String
  sender : Sender
  text : String
  timestamp : String
  deriving DecidableEq, Repr

/-- Playback scheduler state: the gapless cursor nextStartTimeRef (App.tsx
line 32), the active-source set sourcesRef (line 33, membership only, sources
named by numeric id), and the isModelSpeaking observable (line 18). -/
structure SchedulerState where
  nextStartTime : Rat
  activeSources : List Nat
  isModelSpeaking : Bool
  deriving DecidableEq, Repr

/-- One gapless-playback scheduling step for a decoded buffer of duration dur
when the output device clock reads now (App.tsx lines 171-189): set the
speaking flag, bump the cursor to max(cursor, currentTime), start the new
source exactly at the cursor, advance the cursor by the buffer duration, and
add the source to the active set.  Returns the new state together with the
start time handed to source.start. -/
def schedule (st : SchedulerState) (now dur : Rat) (srcId : Nat) :
    SchedulerState × Rat :=
  (⟨max st.nextStartTime now + dur, srcId :: st.activeSources, true⟩,
    max st.nextStartTime now)

/-- Handling of the interrupted flag (App.tsx lines 194-199): force-stop every
active source (best effort, stop failures ignored by the try/catch), clear the
set, reset the cursor to 0 and clear the speaking flag.  Returns the new state
and the list of sources that were force-stopped. -/
def interrupt (st : SchedulerState) : SchedulerState × List Nat :=
  (⟨0, [], false⟩, st.activeSources)

/-- The ended listener registered on each source (App.tsx lines 182-185):
remove the source from the set; if the set becomes empty, clear the speaking
flag. -/
def onSourceEnded (st : SchedulerState) (srcId : Nat) : SchedulerState :=
  ⟨st.nextStartTime, st.activeSources.erase srcId,
    if (st.activeSources.erase srcId).isEmpty then false else st.isModelSpeaking⟩

/-- Sequential scheduling of a list of decoded buffers, one triple per chunk:
the device-clock value observed at the cursor bump, the buffer duration, and
the source id.  Returns the final scheduler state and the start times in call
order (the repeated per-chunk execution of App.tsx lines 175-189 when chunks
are processed strictly in order). -/
def scheduleRun : SchedulerState → List (Rat × Rat × Nat) → SchedulerState × List Rat
  | st, [] => (st, [])
  | st, c :: rest =>
    let p := schedule st c.1 c.2.1 c.2.2
    let q := scheduleRun p.1 rest
    (q.1, p.2 :: q.2)

theorem scheduleRun_getD_succ (l : List (Rat × Rat × Nat)) :
    ∀ (st : SchedulerState) (i : Nat), i + 1 < l.length →
      (scheduleRun st l).2.getD (i + 1) 0 =
        max ((scheduleRun st l).2.getD i 0 + (l.getD i (0, 0, 0)).2.1)
          ((l.getD (i + 1) (0, 0, 0)).1) := by
  induction l with
  | nil => intro st i h; simp at h
  | cons c rest ih =>
    intro st i h
    cases i with
    | zero =>
      cases rest with
      | nil => simp at h
      | cons c2 rest2 =>
        simp [scheduleRun, schedule]
    | succ j =>
      have hj : j + 1 < rest.length := by
        simpa [Nat.succ_lt_succ_iff] using h
      simpa [scheduleRun] using ih (schedule st c.1 c.2.1 c.2.2).1 j hj

/-- C2: a schedule call bumps the cursor to max(cursor, deviceCurrentTime),
starts the source exactly at the bumped cursor, advances the cursor by the
buffer duration and records the source in the active set; consequently, for a
sequence of buffers scheduled in order, start[i+1] = start[i] + d[i] whenever
start[i] + d[i] is at least the device time observed at the next call
(back-to-back playback, no gap and no overlap).  [App.tsx lines 171-189] -/
theorem schedule_gapless_back_to_back :
    (∀ (st : SchedulerState) (now dur : Rat) (srcId : Nat),
      (schedule st now dur srcId).2 = max st.nextStartTime now ∧
      (schedule st now dur srcId).1.nextStartTime = max st.nextStartTime now + dur ∧
      (schedule st now dur srcId).1.activeSources = srcId :: st.activeSources) ∧
    (∀ (st : SchedulerState) (l : List (Rat × Rat × Nat)) (i : Nat),
      i + 1 < l.length →
      (l.getD (i + 1) (0, 0, 0)).1 ≤
        (scheduleRun st l).2.getD i 0 + (l.getD i (0, 0, 0)).2.1 →
      (scheduleRun st l).2.getD (i + 1) 0 =
        (scheduleRun st l).2.getD i 0 + (l.getD i (0, 0, 0)).2.1) := by
  constructor
  · intro st now dur srcId
    exact ⟨rfl, rfl, rfl⟩
  · intro st l i h hle
    rw [scheduleRun_getD_succ l st i h]
    exact max_eq_left hle

/-- Witness for schedule_gapless_back_to_back: a concrete two-chunk run where
the second chunk starts exactly when the first one ends. -/
theorem schedule_gapless_back_to_back_witness :
    (schedule ⟨0, [], false⟩ 1 2 10).2 = max 0 1 ∧
    (scheduleRun ⟨0, [], false⟩ [(1, 2, 10), (0, 3, 11)]).2.getD 1 0 =
      (scheduleRun ⟨0, [], false⟩ [(1, 2, 10), (0, 3, 11)]).2.getD 0 0 +
        (([(1, 2, 10), (0, 3, 11)] : List (Rat × Rat × Nat)).getD 0 (0, 0, 0)).2.1 :=
  ⟨(schedule_gapless_back_to_back.1 ⟨0, [], false⟩ 1 2 10).1,
    schedule_gapless_back_to_back.2 ⟨0, [], false⟩ [(1, 2, 10), (0, 3, 11)] 0
      (by decide) (by norm_num [scheduleRun, schedule])⟩

/-- C9: after the interrupted flag is processed, the active-source set is
empty, every previously active source has been force-stopped, the cursor is 0
and the speaking observable is false; a buffer scheduled immediately
afterwards starts at the current device time, not at a stale cursor value.
[App.tsx lines 194-199] -/
theorem interrupt_resets_scheduler (st : SchedulerState) (now dur : Rat)
    (srcId : Nat) (h : 0 ≤ now) :
    (interrupt st).1.activeSources = [] ∧
    (interrupt st).1.nextStartTime = 0 ∧
    (interrupt st).1.isModelSpeaking = false ∧
    (interrupt st).2 = st.activeSources ∧
    (schedule (interrupt st).1 now dur srcId).2 = now := by
  refine ⟨rfl, rfl, rfl, rfl, ?_⟩
  simp [interrupt, schedule, max_eq_right h]

/-- Witness for interrupt_resets_scheduler at a concrete scheduler state. -/
theorem interrupt_resets_scheduler_witness :
    (interrupt ⟨5, [3, 4], true⟩).1.activeSources = [] ∧
    (interrupt ⟨5, [3, 4], true⟩).1.nextStartTime = 0 ∧
    (interrupt ⟨5, [3, 4], true⟩).1.isModelSpeaking = false ∧
    (interrupt ⟨5, [3, 4], true⟩).2 = [3, 4] ∧
    (schedule (interrupt ⟨5, [3, 4], true⟩).1 7 2 9).2 = 7 :=
  interrupt_resets_scheduler ⟨5, [3, 4], true⟩ 7 2 9 (by norm_num)

/-- Turn accumulators and in-memory history: the currentInput, currentOutput
and messages React state hooks (App.tsx lines 15-17). -/
structure TurnState where
  currentInput : String
  currentOutput : String
  messages : List Message
  deriving DecidableEq, Repr

/-- The serverContent fields of one inbound delivery that the transcript phase
of onmessage consumes (App.tsx lines 143-163): an optional output
transcription fragment, an optional input transcription fragment, and the
turnComplete flag. -/
structure ServerContent where
  outputTranscription : Option String
  inputTranscription : Option String
  turnComplete : Bool
  deriving DecidableEq, Repr

/-- Transcription branch of onmessage (App.tsx lines 145-149).  Note the
else-if in the source: when an output fragment is present, an input fragment
carried by the same delivery is not processed. -/
def processTranscription (m : ServerContent) (st : TurnState) : TurnState :=
  match m.outputTranscription with
  | some t => { st with currentOutput := st.currentOutput ++ t }
  | none =>
    match m.inputTranscription with
    | some t => { st with currentInput := st.currentInput ++ t }
    | none => st

/-- JS Array.prototype.slice(-n) on an array of length at least n: the last n
elements of the list. -/
def sliceLast (n : Nat) (l : List α) : List α := l.drop (l.length - n)

/-- turnComplete branch of onmessage (App.tsx lines 151-163).  The source
reads const uText = currentInput and const mText = currentOutput: those
identifiers resolve to the values captured by the onmessage closure at the
render in which startConversation ran (the component keeps refs so that
onaudioprocess sees the latest talkMode and isPTTPressed, lines 38-44, but has
no such refs for currentInput and currentOutput), so they enter here as
capturedInput and capturedOutput, distinct from the live accumulators in st.
If either captured value is non-empty, a user and/or model message (user
first) is appended and the history is capped with slice(-50); both live
accumulators are then cleared unconditionally. -/
def processTurnComplete (capturedInput capturedOutput uId mId uTs mTs : String)
    (st : TurnState) : TurnState :=
  let newMessages :=
    if capturedInput = "" ∧ capturedOutput = "" then st.messages
    else
      sliceLast 50 (st.messages ++
        (if capturedInput = "" then [] else [⟨uId, Sender.user, capturedInput, uTs⟩]) ++
        (if capturedOutput = "" then [] else [⟨mId, Sender.model, capturedOutput, mTs⟩]))
  ⟨"", "", newMessages⟩

/-- The transcript phase of one onmessage delivery (App.tsx lines 143-163) for
a session whose onmessage closure captured capturedInput/capturedOutput when
startConversation ran: transcription fragments are handled first, then the
turnComplete branch. -/
def onmessageTranscriptPhase (capturedInput capturedOutput uId mId uTs mTs : String)
    (m : ServerContent) (st : TurnState) : TurnState :=
  let st1 := processTranscription m st
  if m.turnComplete then
    processTurnComplete capturedInput capturedOutput uId mId uTs mTs st1
  else st1

/-- JS String.prototype.trim as used on the text box: remove leading and
trailing whitespace characters. -/
def jsTrim (s : String) : String :=
  ⟨((s.data.dropWhile Char.isWhitespace).reverse.dropWhile Char.isWhitespace).reverse⟩

/-- handleSendText (App.tsx lines 231-245): if the trimmed text box is empty
or there is no active session handle, return unchanged (nothing appended,
nothing sent); otherwise append one user Message carrying the trimmed text
(with no slice(-50) cap at this site), send the trimmed text on the channel,
and clear the text box.  Returns the new turn state, what was sent on the
channel, and the new text box contents. -/
def handleSendText (st : TurnState) (textInput : String) (hasSession : Bool)
    (msgId timestamp : String) : TurnState × Option String × String :=
  if jsTrim textInput = "" ∨ hasSession = false then (st, none, textInput)
  else
    ({ st with messages :=
        st.messages ++ [⟨msgId, Sender.user, jsTrim textInput, timestamp⟩] },
      some (jsTrim textInput), "")

/-- C10: typed-text submission is guarded: empty trimmed text or no active
session is a complete no-op (nothing appended, nothing sent, box untouched);
otherwise exactly one user Message with the trimmed text is appended, the
trimmed text is sent on the channel, and the text box is cleared.  [App.tsx
lines 231-245] -/
theorem handleSendText_guard_and_send (st : TurnState) (textInput : String)
    (hasSession : Bool) (msgId timestamp : String) :
    ((jsTrim textInput = "" ∨ hasSession = false) →
      handleSendText st textInput hasSession msgId timestamp = (st, none, textInput)) ∧
    (jsTrim textInput ≠ "" → hasSession = true →
      handleSendText st textInput hasSession msgId timestamp =
        ({ st with messages :=
            st.messages ++ [⟨msgId, Sender.user, jsTrim textInput, timestamp⟩] },
          some (jsTrim textInput), "")) := by
  constructor
  · intro h
    simp [handleSendText, h]
  · intro h1 h2
    rw [handleSendText, if_neg]
    simp [h1, h2]

/-- Witness for handleSendText_guard_and_send: submitting a padded "  hi  "
with an active session appends one user message "hi" and clears the box. -/
theorem handleSendText_guard_and_send_witness :
    handleSendText ⟨"", "", []⟩ "  hi  " true "id1" "t1" =
      (⟨"", "", [⟨"id1", Sender.user, "hi", "t1"⟩]⟩, some "hi", "") :=
  (handleSendText_guard_and_send ⟨"", "", []⟩ "  hi  " true "id1" "t1").2
    (by decide) rfl

/-- C5 counterexample: a single delivery carrying both an output fragment "b"
and an input fragment "a" appends only to the output accumulator; the input
fragment is dropped by the else-if of App.tsx lines 145-149, contradicting the
claim that such a delivery appends to both accumulators. -/
theorem both_fragments_input_dropped :
    processTranscription ⟨some "b", some "a", false⟩ ⟨"X", "Y", []⟩ = ⟨"X", "Yb", []⟩ ∧
    ¬ ((processTranscription ⟨some "b", some "a", false⟩ ⟨"X", "Y", []⟩).currentInput
          = "X" ++ "a" ∧
        (processTranscription ⟨some "b", some "a", false⟩ ⟨"X", "Y", []⟩).currentOutput
          = "Y" ++ "b") := by
  constructor
  · rfl
  · intro h
    exact absurd h.1 (by decide)

/-- C5 as amended: per delivery at most one transcription fragment is
processed — an output fragment, when present, is appended to the output
accumulator and any input fragment of the same delivery is ignored; only when
no output fragment is present is an input fragment appended to the input
accumulator; a delivery with neither fragment leaves both untouched.  [App.tsx
lines 145-149] -/
theorem transcription_else_if (st : TurnState) (m : ServerContent) :
    (∀ t, m.outputTranscription = some t →
      processTranscription m st = { st with currentOutput := st.currentOutput ++ t }) ∧
    (m.outputTranscription = none → ∀ t, m.inputTranscription = some t →
      processTranscription m st = { st with currentInput := st.currentInput ++ t }) ∧
    (m.outputTranscription = none → m.inputTranscription = none →
      processTranscription m st = st) := by
  obtain ⟨o, i, tc⟩ := m
  refine ⟨fun t h => ?_, fun h1 t h2 => ?_, fun h1 h2 => ?_⟩
  · subst h; rfl
  · subst h1; subst h2; rfl
  · subst h1; subst h2; rfl

/-- Witness for transcription_else_if: an input-only delivery appends "a" to
the input accumulator. -/
theorem transcription_else_if_witness :
    processTranscription ⟨none, some "a", false⟩ ⟨"X", "Y", []⟩ =
      { currentInput := "X" ++ "a", currentOutput := "Y", messages := [] } :=
  (transcription_else_if ⟨"X", "Y", []⟩ ⟨none, some "a", false⟩).2.1 rfl "a" rfl

/-- C3 (code deviation): a session started with empty accumulators receives an
input fragment "hello", then an output fragment "hi there", then a
turn-complete delivery.  Just before the completion the live accumulators hold
both fragments, yet the completion appends no message at all — the uText/mText
reads in App.tsx lines 152-153 see the closure snapshot taken when
startConversation ran, both empty — and both accumulators are cleared.  The
claim expects a user message "hello" followed by a model message "hi there". -/
theorem turnComplete_reads_stale_closure :
    (onmessageTranscriptPhase "" "" "u1" "m1" "t1" "t2" ⟨some "hi there", none, false⟩
        (onmessageTranscriptPhase "" "" "u1" "m1" "t1" "t2" ⟨none, some "hello", false⟩
          ⟨"", "", []⟩)) = ⟨"hello", "hi there", []⟩ ∧
    (onmessageTranscriptPhase "" "" "u1" "m1" "t1" "t2" ⟨none, none, true⟩
        ⟨"hello", "hi there", []⟩) = ⟨"", "", []⟩ := by
  constructor
  · rfl
  · rfl

/-- A 50-entry history. -/
def fiftyMessages : List Message :=
  List.replicate 50 ⟨"x", Sender.user, "m", "t"⟩

/-- C4 counterexample: submitting typed text on a 50-entry history leaves a
51-entry history — handleSendText (App.tsx lines 231-245) appends with no
slice(-50) cap, contradicting the claim that every appending operation leaves
at most the 50 most recent entries. -/
theorem handleSendText_exceeds_history_cap :
    ¬ ((handleSendText ⟨"", "", fiftyMessages⟩ "hi" true "id" "ts").1.messages.length
        ≤ 50) := by
  decide

/-- C4 as amended: the slice(-50) cap applies only at turn finalization, where
the retained history is the at-most-50-entry suffix of the appended list
(oldest-first order preserved); explicit user text submission appends one
message with no cap, so the history can exceed 50 entries.  [App.tsx lines
151-163 and 231-245] -/
theorem history_cap_only_at_turn_finalization
    (ci co uId mId uTs mTs : String) (st : TurnState)
    (st2 : TurnState) (textInput msgId timestamp : String)
    (hci : ¬ (ci = "" ∧ co = "")) (ht : jsTrim textInput ≠ "") :
    (processTurnComplete ci co uId mId uTs mTs st).messages.length ≤ 50 ∧
    (processTurnComplete ci co uId mId uTs mTs st).messages <:+
      (st.messages ++
        (if ci = "" then [] else [⟨uId, Sender.user, ci, uTs⟩]) ++
        (if co = "" then [] else [⟨mId, Sender.model, co, mTs⟩])) ∧
    (handleSendText st2 textInput true msgId timestamp).1.messages =
      st2.messages ++ [⟨msgId, Sender.user, jsTrim textInput, timestamp⟩] := by
  refine ⟨?_, ?_, ?_⟩
  · rw [processTurnComplete]
    simp only [if_neg hci, sliceLast]
    simp only [List.length_drop]
    omega
  · rw [processTurnComplete]
    simp only [if_neg hci, sliceLast]
    exact List.drop_suffix _ _
  · rw [handleSendText, if_neg]
    simp [ht]

/-- Witness for history_cap_only_at_turn_finalization: one finalized turn with
input "hello" on an empty history, and one text submission "hi". -/
theorem history_cap_only_at_turn_finalization_witness :
    (processTurnComplete "hello" "" "u1" "m1" "t1" "t2" ⟨"", "", []⟩).messages.length
        ≤ 50 ∧
    (processTurnComplete "hello" "" "u1" "m1" "t1" "t2" ⟨"", "", []⟩).messages <:+
      (([] : List Message) ++
        (if ("hello" : String) = "" then [] else [⟨"u1", Sender.user, "hello", "t1"⟩]) ++
        (if ("" : String) = "" then [] else [⟨"m1", Sender.model, "", "t2"⟩])) ∧
    (handleSendText ⟨"", "", []⟩ "hi" true "id" "ts").1.messages =
      ([] : List Message) ++ [⟨"id", Sender.user, "hi", "ts"⟩] :=
  history_cap_only_at_turn_finalization "hello" "" "u1" "m1" "t1" "t2" ⟨"", "", []⟩
    ⟨"", "", []⟩ "hi" "id" "ts" (by simp) (by decide)

/-- Resource handles owned by a session: activeSessionRef, scriptProcessorRef
and micStreamRef (App.tsx lines 34-36), modelled as booleans recording whether
the handle is currently held (non-null, with live microphone tracks). -/
structure AppResources where
  activeSession : Bool
  scriptProcessor : Bool
  micStream : Bool
  deriving DecidableEq, Repr

/-- Session-level state: connection status, scheduler state and resource
handles. -/
structure AppState where
  status : ConnectionStatus
  sched : SchedulerState
  res : AppResources
  deriving DecidableEq, Repr

/-- stopConversation (App.tsx lines 78-96): close and drop the session handle,
disconnect and drop the script processor, stop the microphone tracks and drop
the stream, force-stop every active source (stop failures ignored by the
try/catch), clear the source set, reset the cursor, clear the speaking flag —
and, as its final step (line 95), set the status to DISCONNECTED.  Returns the
new state and the force-stopped sources. -/
def stopConversation (st : AppState) : AppState × List Nat :=
  (⟨ConnectionStatus.disconnected, ⟨0, [], false⟩, ⟨false, false, false⟩⟩,
    st.sched.activeSources)

/-- onerror callback of the live channel (App.tsx lines 201-205): log the
error, set status ERROR, then call stopConversation. -/
def onerror (st : AppState) : AppState × List Nat :=
  stopConversation { st with status := ConnectionStatus.error }

/-- onclose callback of the live channel (App.tsx lines 206-210): set status
DISCONNECTED, then call stopConversation. -/
def onclose (st : AppState) : AppState × List Nat :=
  stopConversation { st with status := ConnectionStatus.disconnected }

/-- C6 (code deviation): processing a channel error performs the full teardown
— session handle closed and dropped, capture processor disconnected,
microphone released, every active source force-stopped, scheduler cursor and
speaking flag reset — but the resulting status is DISCONNECTED, not ERROR: the
setStatus(ERROR) of onerror is overwritten by the setStatus(DISCONNECTED) that
stopConversation performs as its last step.  [App.tsx lines 78-96 and 201-205] -/
theorem onerror_ends_disconnected (st : AppState) :
    (onerror st).1.status = ConnectionStatus.disconnected ∧
    ¬ (onerror st).1.status = ConnectionStatus.error ∧
    (onerror st).1.res = ⟨false, false, false⟩ ∧
    (onerror st).1.sched = ⟨0, [], false⟩ ∧
    (onerror st).2 = st.sched.activeSources :=
  ⟨rfl, fun h => ConnectionStatus.noConfusion h, rfl, rfl, rfl⟩

/-- Witness for onerror_ends_disconnected: a channel error on a connected
session with one playing source. -/
theorem onerror_ends_disconnected_witness :
    (onerror ⟨ConnectionStatus.connected, ⟨3, [1], true⟩, ⟨true, true, true⟩⟩).1.status
        = ConnectionStatus.disconnected ∧
    (onerror ⟨ConnectionStatus.connected, ⟨3, [1], true⟩, ⟨true, true, true⟩⟩).2 = [1] :=
  ⟨(onerror_ends_disconnected
      ⟨ConnectionStatus.connected, ⟨3, [1], true⟩, ⟨true, true, true⟩⟩).1,
    (onerror_ends_disconnected
      ⟨ConnectionStatus.connected, ⟨3, [1], true⟩, ⟨true, true, true⟩⟩).2.2.2.2⟩

/-- Capture-side state: the talkModeRef and isPTTPressedRef cells (App.tsx
lines 38-44, kept in sync with the talkMode and isPTTPressed hooks by a
useEffect so that onaudioprocess reads the latest values), plus the ids of the
frames transmitted so far. -/
structure CaptureState where
  talkModeRef : TalkMode
  isPTTPressedRef : Bool
  sent : List Nat
  deriving DecidableEq, Repr

/-- Events seen by the capture side while a session is connected: a talk-mode
change, a push-to-talk press or release (handlePTTDown/handlePTTUp, App.tsx
lines 247-248, propagated into the refs by the useEffect of lines 41-44), or
the production of one captured frame (onaudioprocess firing, lines 133-139). -/
inductive CaptureEvent where
  | setTalkMode (m : TalkMode)
  | setPTTPressed (b : Bool)
  | frame (n : Nat)
  deriving DecidableEq, Repr

/-- The transmit gate read per produced frame (App.tsx line 134): transmit iff
the mode is Continuous or push-to-talk is pressed. -/
def shouldTransmit (mode : TalkMode) (pressed : Bool) : Bool :=
  mode == TalkMode.continuous || pressed

/-- One capture-side event step: mode/pressed updates write the refs; a frame
consults the refs at the moment it is produced (App.tsx lines 133-139) and is
transmitted iff the gate is open. -/
def captureStep (st : CaptureState) : CaptureEvent → CaptureState
  | CaptureEvent.setTalkMode m => { st with talkModeRef := m }
  | CaptureEvent.setPTTPressed b => { st with isPTTPressedRef := b }
  | CaptureEvent.frame n =>
    if shouldTransmit st.talkModeRef st.isPTTPressedRef then
      { st with sent := st.sent ++ [n] }
    else st

/-- Folding a capture-side event sequence. -/
def captureRun (st : CaptureState) : List CaptureEvent → CaptureState
  | [] => st
  | e :: es => captureRun (captureStep st e) es

theorem captureRun_append (st : CaptureState) (xs ys : List CaptureEvent) :
    captureRun st (xs ++ ys) = captureRun (captureRun st xs) ys := by
  induction xs generalizing st with
  | nil => rfl
  | cons e es ih => simpa [captureRun] using ih (captureStep st e)

/-- C8: the transmit decision of each captured frame uses the talk mode and
pressed values current when the frame is produced — in Continuous mode the
gate is open for every frame, in PushToTalk mode it is open iff pressed — and
a press/release toggle leaves the frames already produced untouched, affecting
only later frames.  [App.tsx lines 38-44 and 133-139] -/
theorem capture_gate_reads_latest (st : CaptureState) (evs : List CaptureEvent)
    (n : Nat) (b : Bool) :
    (captureRun st (evs ++ [CaptureEvent.frame n])).sent =
      (captureRun st evs).sent ++
        (if shouldTransmit (captureRun st evs).talkModeRef
            (captureRun st evs).isPTTPressedRef then [n] else []) ∧
    ((captureRun st evs).talkModeRef = TalkMode.continuous →
      shouldTransmit (captureRun st evs).talkModeRef
        (captureRun st evs).isPTTPressedRef = true) ∧
    ((captureRun st evs).talkModeRef = TalkMode.ptt →
      shouldTransmit (captureRun st evs).talkModeRef
        (captureRun st evs).isPTTPressedRef = (captureRun st evs).isPTTPressedRef) ∧
    (captureRun st (evs ++ [CaptureEvent.setPTTPressed b])).sent =
      (captureRun st evs).sent := by
  refine ⟨?_, ?_, ?_, ?_⟩
  · rw [captureRun_append]
    by_cases h : shouldTransmit (captureRun st evs).talkModeRef
        (captureRun st evs).isPTTPressedRef = true
    · simp [captureRun, captureStep, h]
    · simp [captureRun, captureStep, h]
  · intro h
    simp [shouldTransmit, h]
  · intro h
    simp [shouldTransmit, h]
  · rw [captureRun_append]
    rfl

/-- Witness for capture_gate_reads_latest: in PushToTalk mode, a frame
produced after the press is transmitted and the press itself changes no past
transmission. -/
theorem capture_gate_reads_latest_witness :
    (captureRun ⟨TalkMode.continuous, false, []⟩
        ([CaptureEvent.setTalkMode TalkMode.ptt, CaptureEvent.setPTTPressed true] ++
          [CaptureEvent.frame 7])).sent =
      (captureRun ⟨TalkMode.continuous, false, []⟩
          [CaptureEvent.setTalkMode TalkMode.ptt, CaptureEvent.setPTTPressed true]).sent ++
        (if shouldTransmit
            (captureRun ⟨TalkMode.continuous, false, []⟩
              [CaptureEvent.setTalkMode TalkMode.ptt,
                CaptureEvent.setPTTPressed true]).talkModeRef
            (captureRun ⟨TalkMode.continuous, false, []⟩
              [CaptureEvent.setTalkMode TalkMode.ptt,
                CaptureEvent.setPTTPressed true]).isPTTPressedRef then [7] else []) :=
  (capture_gate_reads_latest ⟨TalkMode.continuous, false, []⟩
    [CaptureEvent.setTalkMode TalkMode.ptt, CaptureEvent.setPTTPressed true] 7 true).1

/-- Modelled from the spec: decode and decodeAudioData of
services/audioService.ts are imported by App.tsx (line 5) but that file is not
among the repository sources.  Per the spec (section 4.3) the wire payload is
base64-framed 16-bit signed little-endian PCM; decoding rescales the integers
to [-1, 1], computes sample count and duration from the payload length at the
fixed 24 kHz output rate, and fails with a DecodeError iff the payload length
is not a whole number of 16-bit samples.  Only success or failure and the
resulting buffer duration are observable to the scheduler, so the model maps a
byte payload to its duration, sampleCount / 24000 seconds. -/
def decodeAudioData (payload : List Nat) : Except Unit Rat :=
  if payload.length % 2 = 0 then
    Except.ok (((payload.length / 2 : Nat) : Rat) / 24000)
  else Except.error ()

/-- The audio part loop of onmessage (App.tsx lines 166-192) at device time
now; each part carries a source id and its base64-decoded byte payload.  Per
part the source sets the speaking flag and bumps the cursor (lines 171-175)
before awaiting the decode; a successful decode is then started and the
cursor advanced (lines 178-189, the composite effect of one schedule step).
The loop body has no try/catch: a decode failure rejects the async onmessage
handler, so the remaining parts of the SAME delivery are never processed (and
neither is the interrupted check after the loop); the error case returns the
state visible at the rejection.  Alongside the state, the ids of the chunks
actually scheduled are returned in scheduling order. -/
def processParts (now : Rat) :
    SchedulerState → List (Nat × List Nat) →
      Except (SchedulerState × List Nat) (SchedulerState × List Nat)
  | st, [] => Except.ok (st, [])
  | st, part :: rest =>
    match decodeAudioData part.2 with
    | Except.error _ =>
      Except.error (⟨max st.nextStartTime now, st.activeSources, true⟩, [])
    | Except.ok dur =>
      match processParts now (schedule st now dur part.1).1 rest with
      | Except.ok q => Except.ok (q.1, part.1 :: q.2)
      | Except.error q => Except.error (q.1, part.1 :: q.2)

/-- The audio and interrupted phases of one onmessage delivery (App.tsx lines
166-199): run the part loop; the interrupted flag is acted on only when the
loop completed without a decode error (a rejection skips it).  Returns the
scheduler state, the scheduled chunk ids, and the force-stopped sources. -/
def onmessageAudioPhase (now : Rat) (st : SchedulerState)
    (parts : List (Nat × List Nat)) (interrupted : Bool) :
    SchedulerState × List Nat × List Nat :=
  match processParts now st parts with
  | Except.error q => (q.1, q.2, [])
  | Except.ok q =>
    if interrupted then ((interrupt q.1).1, q.2, (interrupt q.1).2)
    else (q.1, q.2, [])

/-- The same phases at the session level: only the scheduler fields change;
the connection status and the resource handles are untouched, with or without
a decode failure (this code path contains no setStatus and no teardown
call). -/
def onmessageAudioApp (now : Rat) (st : AppState)
    (parts : List (Nat × List Nat)) (interrupted : Bool) :
    AppState × List Nat × List Nat :=
  (⟨st.status, (onmessageAudioPhase now st.sched parts interrupted).1, st.res⟩,
    (onmessageAudioPhase now st.sched parts interrupted).2)

/-- C7 counterexample: a delivery carrying a malformed one-byte chunk (id 0)
followed by a well-formed chunk (id 1) schedules nothing at all — the decode
failure aborts the loop before chunk 1 — whereas the same delivery without the
malformed chunk schedules chunk 1.  The offending chunk is therefore not
dropped with scheduling of the other chunks continuing unaffected. -/
theorem decode_error_aborts_delivery :
    (onmessageAudioPhase 0 ⟨0, [], false⟩ [(0, [7]), (1, [7, 7])] false).2.1 = [] ∧
    (onmessageAudioPhase 0 ⟨0, [], false⟩ [(1, [7, 7])] false).2.1 = [1] := by
  constructor
  · rfl
  · rfl

/-- C7 as amended: a chunk whose payload fails to decode is dropped without
the session entering an error state and without any user-visible error — the
connection status and the resource handles are untouched — but the failure
aborts the processing of the remaining chunks of the same delivery and the
interrupted check of that delivery (the rejection leaves only the speaking
flag set and the cursor bumped, with no source scheduled or stopped);
deliveries processed afterwards are unaffected.  [App.tsx lines 166-199] -/
theorem decode_error_local_effects (st : AppState) (now : Rat) (srcId : Nat)
    (payload : List Nat) (rest : List (Nat × List Nat)) (interrupted : Bool)
    (h : decodeAudioData payload = Except.error ()) :
    (onmessageAudioApp now st ((srcId, payload) :: rest) interrupted).1.status
        = st.status ∧
    (onmessageAudioApp now st ((srcId, payload) :: rest) interrupted).1.res
        = st.res ∧
    (onmessageAudioApp now st ((srcId, payload) :: rest) interrupted).2.1 = [] ∧
    (onmessageAudioApp now st ((srcId, payload) :: rest) interrupted).2.2 = [] ∧
    (onmessageAudioApp now st ((srcId, payload) :: rest) interrupted).1.sched =
      ⟨max st.sched.nextStartTime now, st.sched.activeSources, true⟩ := by
  simp [onmessageAudioApp, onmessageAudioPhase, processParts, h]

/-- Witness for decode_error_local_effects: a malformed one-byte chunk on a
connected session with the interrupted flag set in the same delivery. -/
theorem decode_error_local_effects_witness :
    (onmessageAudioApp 0 ⟨ConnectionStatus.connected, ⟨0, [], false⟩, ⟨true, true, true⟩⟩
        [(0, [7]), (1, [7, 7])] true).1.status = ConnectionStatus.connected ∧
    (onmessageAudioApp 0 ⟨ConnectionStatus.connected, ⟨0, [], false⟩, ⟨true, true, true⟩⟩
        [(0, [7]), (1, [7, 7])] true).1.res = ⟨true, true, true⟩ ∧
    (onmessageAudioApp 0 ⟨ConnectionStatus.connected, ⟨0, [], false⟩, ⟨true, true, true⟩⟩
        [(0, [7]), (1, [7, 7])] true).2.1 = [] ∧
    (onmessageAudioApp 0 ⟨ConnectionStatus.connected, ⟨0, [], false⟩, ⟨true, true, true⟩⟩
        [(0, [7]), (1, [7, 7])] true).2.2 = [] ∧
    (onmessageAudioApp 0 ⟨ConnectionStatus.connected, ⟨0, [], false⟩, ⟨true, true, true⟩⟩
        [(0, [7]), (1, [7, 7])] true).1.sched = ⟨max 0 0, [], true⟩ :=
  decode_error_local_effects
    ⟨ConnectionStatus.connected, ⟨0, [], false⟩, ⟨true, true, true⟩⟩ 0 0 [7]
    [(1, [7, 7])] true (by rfl)

/-- One onmessage handler with its decode in flight (App.tsx lines 166-191):
the handler id, the chunk id whose decodeAudioData promise it is awaiting, and
the chunk ids of the same delivery still to process after that one.  The async
for-of loop processes the parts of one delivery strictly sequentially — the
await on chunk N keeps chunk N+1 from starting to decode — but the handler
suspends at each await, letting the callbacks of other deliveries run. -/
structure PendingHandler where
  handler : Nat
  awaiting : Nat
  rest : List Nat
  deriving DecidableEq, Repr

/-- Event-loop events for concurrently delivered messages: deliver h cs fires
the async onmessage callback for delivery h carrying chunk ids cs (the
callback runs synchronously through the cursor bump into the first decode,
then suspends); decodeDone h resumes handler h when its awaited decode
settles, which calls source.start for that chunk and then either enters the
next decode of the same delivery or finishes the handler.  Nothing constrains
the completion order of decodes belonging to different handlers. -/
inductive LoopEvent where
  | deliver (h : Nat) (chunks : List Nat)
  | decodeDone (h : Nat)
  deriving DecidableEq, Repr

/-- Event-loop state: the handlers currently suspended in a decode, and the
chunk ids in the order source.start was called on them. -/
structure LoopState where
  pendingHandlers : List PendingHandler
  scheduledOrder : List Nat
  deriving DecidableEq, Repr

/-- One event-loop step (the semantics of App.tsx lines 166-191 under the JS
event loop).  A deliver with no chunks completes synchronously; a decodeDone
for a handler that is not suspended is a no-op (no such event occurs in a real
run). -/
def loopStep (st : LoopState) : LoopEvent → LoopState
  | LoopEvent.deliver h cs =>
    match cs with
    | [] => st
    | c :: rest =>
      { st with pendingHandlers := st.pendingHandlers ++ [⟨h, c, rest⟩] }
  | LoopEvent.decodeDone h =>
    match st.pendingHandlers.find? (fun p => p.handler == h) with
    | none => st
    | some p =>
      match p.rest with
      | [] =>
        ⟨st.pendingHandlers.filter (fun q => q.handler != h),
          st.scheduledOrder ++ [p.awaiting]⟩
      | c :: rest =>
        ⟨st.pendingHandlers.filter (fun q => q.handler != h) ++ [⟨h, c, rest⟩],
          st.scheduledOrder ++ [p.awaiting]⟩

/-- Folding an event-loop run. -/
def loopRun (st : LoopState) : List LoopEvent → LoopState
  | [] => st
  | e :: es => loopRun (loopStep st e) es

/-- C1 (code deviation): chunk 10 arrives in delivery 1 and chunk 20 in a
later delivery 2.  After both deliveries have fired, both decodes are in
flight at once — the engine does not decode strictly one-at-a-time across
deliveries and keeps no completion queue — and when the decode of chunk 20
settles before that of chunk 10, source.start is called for chunk 20 first:
scheduling follows decode-completion order across deliveries, not arrival
order.  [App.tsx lines 143-200] -/
theorem chunk_order_not_serialized_across_deliveries :
    (loopRun ⟨[], []⟩
        [LoopEvent.deliver 1 [10], LoopEvent.deliver 2 [20]]).pendingHandlers.length
      = 2 ∧
    (loopRun ⟨[], []⟩
        [LoopEvent.deliver 1 [10], LoopEvent.deliver 2 [20],
          LoopEvent.decodeDone 2, LoopEvent.decodeDone 1]).scheduledOrder
      = [20, 10] := by
  constructor
  · rfl
  · rfl

end GeminiLive
